import Mathlib

/-!
Shallow embedding of `foolbox/models/pytorch.py` (class `PyTorchModel`).

Arrays are modelled as a shape (list of dimension sizes) together with flat
numeric data.  The torch tensor/Variable marshalling functions
(`torch.from_numpy`, `.cuda()`, `.cpu()`, `.numpy()`, `.data`) are value
identities and are embedded as such, keeping the source's call chain.
Python `assert` failures and the `ValueError` raised by `np.squeeze` with an
explicit axis are modelled by `Except PyErr`, with one error tag per
failure site so that theorems can distinguish pre-call checks, library
errors and postcondition assertions.

A Python function that receives a mutable array argument is modelled as a
function returning a pair: its return value together with the after-state
of the argument array (the value the caller's array holds once the function
returns).  This lets the development state what the adapter's
`lambda x: preprocess_fn(x.copy())` wrapper does to the caller's array.
-/

/-- Plain numpy-style n-dimensional array: a shape and flat numeric data. -/
structure NDArray where
  shape : List Nat
  data : List Int
deriving DecidableEq, Repr

/-- Number of dimensions (`.ndim` in numpy). -/
def NDArray.ndim (a : NDArray) : Nat := a.shape.length

/-- Python `len` of an array: the size of the leading dimension.  (For a
0-dimensional array Python raises; the adapter is only called with proper
batch arrays, for which the leading dimension exists.) -/
def NDArray.len (a : NDArray) : Nat := a.shape.headD 0

/-- Value-level semantics of `ndarray.copy()`: a fresh array with the same
shape and data. -/
def NDArray.copy (a : NDArray) : NDArray := ⟨a.shape, a.data⟩

/-- Value-level semantics of `image[np.newaxis]`: prepend a dimension of
size 1. -/
def NDArray.expandDims0 (a : NDArray) : NDArray := ⟨1 :: a.shape, a.data⟩

/-- Semantics of `np.squeeze(a, axis=0)`: drop the leading dimension when it
has size 1, raise `ValueError` (here: `none`) otherwise. -/
def NDArray.squeeze0 (a : NDArray) : Option NDArray :=
  match a.shape with
  | 1 :: rest => some ⟨rest, a.data⟩
  | _ => none

/-- Device transfer `.cuda()` does not change the value of an array. -/
def NDArray.cuda (a : NDArray) : NDArray := a

/-- Device transfer `.cpu()` does not change the value of an array. -/
def NDArray.cpu (a : NDArray) : NDArray := a

/-- Conversion `.numpy()` from a torch tensor does not change the value. -/
def NDArray.numpy (a : NDArray) : NDArray := a

/-- Conversion `torch.from_numpy` does not change the value. -/
def NDArray.from_numpy (a : NDArray) : NDArray := a

/-- Old-torch `autograd.Variable`: a tensor plus the `volatile` flag
(inference mode, no differentiation graph is built) and the
`requires_grad` flag. -/
structure Variable where
  data : NDArray
  volatile : Bool
  requires_grad : Bool

/-- Failure sites of the adapter, one tag per `assert` statement and per
possible `np.squeeze` `ValueError` in `pytorch.py`. -/
inductive PyErr where
  /-- The pre-call check `assert image.ndim == 3` in
  `predictions_and_gradient`, executed before the wrapped model is
  invoked. -/
  | assertNdim3
  /-- The postcondition `assert predictions.ndim == 2` in
  `batch_predictions`. -/
  | assertPredNdim2
  /-- The postcondition `assert predictions.shape == (n, self.num_classes())`
  in `batch_predictions`. -/
  | assertPredShapeBatch
  /-- A `ValueError` from `np.squeeze(predictions, axis=0)` in
  `predictions_and_gradient` (library error during conversion). -/
  | squeezePred
  /-- The postcondition `assert predictions.ndim == 1` in
  `predictions_and_gradient`. -/
  | assertPredNdim1
  /-- The postcondition `assert predictions.shape == (self.num_classes(),)`
  in `predictions_and_gradient`. -/
  | assertPredShape1
  /-- A `ValueError` from `np.squeeze(grad, axis=0)` in
  `predictions_and_gradient` (library error during conversion). -/
  | squeezeGrad
  /-- The postcondition `assert grad.shape == image.shape` in
  `predictions_and_gradient`. -/
  | assertGradShape
deriving DecidableEq, Repr

/-- A Python function over a mutable array argument: returns its result
together with the after-state of the argument array. -/
abbrev PyFun := NDArray → NDArray × NDArray

/-- State of a constructed `PyTorchModel` instance.  `_model` is the wrapped
torch module's forward pass; `_backward` embeds the autograd engine for this
module: the flat data of the gradient of the cross-entropy loss with respect
to the input tensor, at a given input value and label (torch guarantees the
gradient tensor has the shape of the input tensor, which the embedding bakes
into the `images.grad` construction below).  `preprocessing_fn` is the
normalized preprocessing function stored by `__init__`. -/
structure PyTorchModel where
  bounds : Int × Int
  channel_axis : Nat
  _num_classes : Nat
  _model : Variable → Variable
  _backward : NDArray → Int → List Int
  cuda : Bool
  preprocessing_fn : PyFun

/-- Embedding of `PyTorchModel.__init__`.  The stored `preprocessing_fn` is
`lambda x: preprocess_fn(x.copy())` when a preprocessing function is
supplied — the copy is a fresh array passed to `preprocess_fn`, so whatever
mutation `preprocess_fn` performs hits the copy and the caller's array `x`
is returned unchanged as after-state — and the identity `lambda x: x`
otherwise. -/
def PyTorchModel.init (model : Variable → Variable)
    (backward : NDArray → Int → List Int) (bounds : Int × Int)
    (num_classes : Nat) (channel_axis : Nat) (cuda : Bool)
    (preprocess_fn : Option PyFun) : PyTorchModel :=
  { bounds := bounds
    channel_axis := channel_axis
    _num_classes := num_classes
    _model := model
    _backward := backward
    cuda := cuda
    preprocessing_fn :=
      match preprocess_fn with
      | some f => fun x => ((f x.copy).1, x)
      | none => fun x => (x, x) }

/-- Embedding of the method `num_classes`. -/
def PyTorchModel.num_classes (m : PyTorchModel) : Nat := m._num_classes

/-- The `Variable` handed to `self._model` in `batch_predictions`:
preprocess, convert with `torch.from_numpy`, move to the device when `cuda`
is set, and wrap with `volatile=True` (inference mode, `requires_grad`
defaults to `False`). -/
def PyTorchModel.batch_model_input (m : PyTorchModel) (images : NDArray) :
    Variable :=
  let images := (m.preprocessing_fn images).1
  let images := NDArray.from_numpy images
  let images := if m.cuda then images.cuda else images
  ⟨images, true, false⟩

/-- Embedding of `batch_predictions`: `n = len(images)` is taken from the
raw input before preprocessing; the wrapped model is invoked on the
preprocessed batch; the result is moved back and converted; the two
postcondition assertions are checked in source order. -/
def PyTorchModel.batch_predictions (m : PyTorchModel) (images : NDArray) :
    Except PyErr NDArray :=
  let n := images.len
  let predictions := m._model (m.batch_model_input images)
  let predictions := predictions.data
  let predictions := if m.cuda then predictions.cpu else predictions
  let predictions := predictions.numpy
  if predictions.ndim ≠ 2 then Except.error PyErr.assertPredNdim2
  else if predictions.shape ≠ [n, m.num_classes] then
    Except.error PyErr.assertPredShapeBatch
  else Except.ok predictions

/-- After-state of the caller's `images` array once `batch_predictions`
returns: the only place the adapter hands the array to foreign code is
`self.preprocessing_fn(images)`. -/
def PyTorchModel.batch_predictions_images_after (m : PyTorchModel)
    (images : NDArray) : NDArray :=
  (m.preprocessing_fn images).2

/-- The `Variable` handed to `self._model` in `predictions_and_gradient`:
wrap the image into a batch of size 1, preprocess, convert, move to the
device when `cuda` is set, and wrap with `requires_grad=True`. -/
def PyTorchModel.pag_model_input (m : PyTorchModel) (image : NDArray) :
    Variable :=
  let images := image.expandDims0
  let images := (m.preprocessing_fn images).1
  let images := NDArray.from_numpy images
  let images := if m.cuda then images.cuda else images
  ⟨images, false, true⟩

/-- Embedding of `predictions_and_gradient`.  The `assert image.ndim == 3`
runs before the wrapped model is invoked.  `images.grad` after
`loss.backward()` is the gradient of the cross-entropy loss with respect to
the input `Variable`: a tensor with the shape of that `Variable` and data
given by the autograd engine (`_backward`) at the preprocessed input and
the label.  Both outputs are squeezed along axis 0 and checked by the
postcondition assertions in source order. -/
def PyTorchModel.predictions_and_gradient (m : PyTorchModel)
    (image : NDArray) (label : Int) : Except PyErr (NDArray × NDArray) :=
  if image.ndim ≠ 3 then Except.error PyErr.assertNdim3
  else
    let images := m.pag_model_input image
    let predictions := m._model images
    let grad : Variable :=
      ⟨⟨images.data.shape, m._backward images.data label⟩, false, false⟩
    let predictions := predictions.data
    let predictions := if m.cuda then predictions.cpu else predictions
    let predictions := predictions.numpy
    match predictions.squeeze0 with
    | none => Except.error PyErr.squeezePred
    | some predictions =>
      if predictions.ndim ≠ 1 then Except.error PyErr.assertPredNdim1
      else if predictions.shape ≠ [m.num_classes] then
        Except.error PyErr.assertPredShape1
      else
        let gradA := grad.data
        let gradA := if m.cuda then gradA.cpu else gradA
        let gradA := gradA.numpy
        match gradA.squeeze0 with
        | none => Except.error PyErr.squeezeGrad
        | some gradA =>
          if gradA.shape ≠ image.shape then Except.error PyErr.assertGradShape
          else Except.ok (predictions, gradA)

/-- After-state of the caller's `image` array once `predictions_and_gradient`
returns: `image[np.newaxis]` is a view sharing the image's data, and the
only foreign code that receives that view is `self.preprocessing_fn`; the
image's value afterwards is the view's after-state reshaped back. -/
def PyTorchModel.pag_image_after (m : PyTorchModel) (image : NDArray) :
    NDArray :=
  ⟨image.shape, ((m.preprocessing_fn image.expandDims0).2).data⟩

/-- One external call to the adapter. -/
inductive Call where
  | batch (images : NDArray)
  | pag (image : NDArray) (label : Int)

/-- State of the adapter after one call.  Neither method body assigns to any
attribute of `self`, so the adapter's own state is returned unchanged after
the call's result is computed. -/
def PyTorchModel.step (m : PyTorchModel) : Call → PyTorchModel
  | Call.batch images =>
      let _ := m.batch_predictions images
      m
  | Call.pag image label =>
      let _ := m.predictions_and_gradient image label
      m

/-- State of the adapter after a sequence of calls. -/
def PyTorchModel.runCalls (m : PyTorchModel) (cs : List Call) : PyTorchModel :=
  cs.foldl PyTorchModel.step m

/-! Helper lemmas shared by the claim theorems. -/

theorem ifBool_cpu (c : Bool) (p : NDArray) : (if c then p.cpu else p) = p := by
  cases c <;> rfl

theorem ifBool_cuda (c : Bool) (p : NDArray) : (if c then p.cuda else p) = p := by
  cases c <;> rfl

theorem batch_model_input_data (m : PyTorchModel) (images : NDArray) :
    (m.batch_model_input images).data = (m.preprocessing_fn images).1 := by
  unfold PyTorchModel.batch_model_input
  simp [ifBool_cuda, NDArray.from_numpy]

theorem pag_model_input_data (m : PyTorchModel) (image : NDArray) :
    (m.pag_model_input image).data = (m.preprocessing_fn image.expandDims0).1 := by
  unfold PyTorchModel.pag_model_input
  simp [ifBool_cuda, NDArray.from_numpy]

theorem batch_predictions_eq (m : PyTorchModel) (images : NDArray) :
    m.batch_predictions images =
      (if ((m._model (m.batch_model_input images)).data).ndim ≠ 2 then
        Except.error PyErr.assertPredNdim2
      else if ((m._model (m.batch_model_input images)).data).shape
          ≠ [images.len, m.num_classes] then
        Except.error PyErr.assertPredShapeBatch
      else Except.ok (m._model (m.batch_model_input images)).data) := by
  obtain ⟨b, ca, nc, F, B, cu, pf⟩ := m
  cases cu <;> rfl

theorem predictions_and_gradient_eq (m : PyTorchModel) (image : NDArray)
    (label : Int) :
    m.predictions_and_gradient image label =
      (if image.ndim ≠ 3 then Except.error PyErr.assertNdim3
      else
        match ((m._model (m.pag_model_input image)).data).squeeze0 with
        | none => Except.error PyErr.squeezePred
        | some p =>
          if p.ndim ≠ 1 then Except.error PyErr.assertPredNdim1
          else if p.shape ≠ [m.num_classes] then
            Except.error PyErr.assertPredShape1
          else
            match (NDArray.mk ((m.pag_model_input image).data).shape
                (m._backward (m.pag_model_input image).data label)).squeeze0 with
            | none => Except.error PyErr.squeezeGrad
            | some g =>
              if g.shape ≠ image.shape then Except.error PyErr.assertGradShape
              else Except.ok (p, g)) := by
  obtain ⟨b, ca, nc, F, B, cu, pf⟩ := m
  cases cu <;> rfl

/-! Concrete instances used by witnesses and counterexamples. -/

/-- A stub wrapped model returning a fixed score tensor of shape (1, 2). -/
def stubForward : Variable → Variable :=
  fun v => ⟨⟨[1, 2], [0, 0]⟩, v.volatile, v.requires_grad⟩

/-- A stub autograd engine whose gradient data is the input's data. -/
def stubBackward : NDArray → Int → List Int := fun a _ => a.data

/-- A concrete adapter: 2 classes, no device placement, no preprocessing. -/
def stubModel : PyTorchModel :=
  PyTorchModel.init stubForward stubBackward (0, 1) 2 1 false none

/-- A concrete 3-dimensional image of shape (1, 1, 2). -/
def img3 : NDArray := ⟨[1, 1, 2], [4, 6]⟩

/-- A concrete 2-dimensional (hence invalid for the gradient path) image. -/
def img2 : NDArray := ⟨[2, 2], [0, 0, 0, 0]⟩

/-- A concrete batch of one image of shape (1, 3). -/
def batch1 : NDArray := ⟨[1, 3], [5, 7, 9]⟩

/-- A stub wrapped model returning a fixed score tensor of shape (2, 2). -/
def stubForward22 : Variable → Variable :=
  fun v => ⟨⟨[2, 2], [0, 0, 0, 0]⟩, v.volatile, v.requires_grad⟩

/-- A preprocessing function that doubles the leading batch dimension and
leaves its argument unmutated. -/
def growFn : PyFun := fun x => (⟨2 :: x.shape.tail, x.data ++ x.data⟩, x)

/-- A concrete adapter whose preprocessing changes the batch size. -/
def stubModelGrow : PyTorchModel :=
  PyTorchModel.init stubForward22 stubBackward (0, 1) 2 1 false (some growFn)

/-! Claim theorems. -/

/-- C1: for every batch with n ≥ 1 images, when the wrapped model's output
has the valid shape (n, num_classes), `batch_predictions` returns it as a
2-dimensional array of shape (n, num_classes); when the output has any other
shape, the call ends in one of the two postcondition assertion failures
instead of returning. -/
theorem batch_predictions_shape_contract (m : PyTorchModel) (images : NDArray)
    (hn : 1 ≤ images.len) :
    (((m._model (m.batch_model_input images)).data).shape
        = [images.len, m.num_classes] →
      ∃ r, m.batch_predictions images = Except.ok r ∧ r.ndim = 2 ∧
        r.shape = [images.len, m.num_classes]) ∧
    (((m._model (m.batch_model_input images)).data).shape
        ≠ [images.len, m.num_classes] →
      ∃ e, m.batch_predictions images = Except.error e ∧
        (e = PyErr.assertPredNdim2 ∨ e = PyErr.assertPredShapeBatch)) := by
  rw [batch_predictions_eq]
  constructor
  · intro h
    have hnd : ((m._model (m.batch_model_input images)).data).ndim = 2 := by
      simp [NDArray.ndim, h]
    refine ⟨(m._model (m.batch_model_input images)).data, ?_, hnd, h⟩
    simp [hnd, h]
  · intro h
    by_cases h2 : ((m._model (m.batch_model_input images)).data).ndim = 2
    · exact ⟨PyErr.assertPredShapeBatch, by simp [h2, h], Or.inr rfl⟩
    · exact ⟨PyErr.assertPredNdim2, by simp [h2], Or.inl rfl⟩

/-- Witness for C1 at the concrete stub adapter and a one-image batch. -/
theorem batch_predictions_shape_contract_witness :
    (1 ≤ batch1.len) ∧
    ∃ r, stubModel.batch_predictions batch1 = Except.ok r ∧ r.ndim = 2 ∧
      r.shape = [batch1.len, stubModel.num_classes] :=
  ⟨by decide,
   (batch_predictions_shape_contract stubModel batch1 (by decide)).1 (by decide)⟩

/-- C2: for every 3-dimensional image and label, with the stored
preprocessing preserving the batch shape (its documented contract) and the
wrapped model returning a valid score tensor of shape (1, num_classes),
`predictions_and_gradient` returns a prediction vector of shape
(num_classes,) and a gradient whose shape equals the image's shape exactly,
both obtained from the batch-of-one outputs by dropping the leading size-1
batch dimension (the flat data is unchanged). -/
theorem predictions_and_gradient_shape_contract (m : PyTorchModel)
    (image : NDArray) (label : Int) (h3 : image.ndim = 3)
    (hpre : ((m.preprocessing_fn image.expandDims0).1).shape
      = image.expandDims0.shape)
    (hout : ((m._model (m.pag_model_input image)).data).shape
      = [1, m.num_classes]) :
    ∃ p g, m.predictions_and_gradient image label = Except.ok (p, g) ∧
      p.ndim = 1 ∧ p.shape = [m.num_classes] ∧ g.shape = image.shape ∧
      p.data = ((m._model (m.pag_model_input image)).data).data ∧
      g.data = m._backward (m.pag_model_input image).data label := by
  have hgsh : ((m.pag_model_input image).data).shape = 1 :: image.shape := by
    rw [pag_model_input_data, hpre]; rfl
  have hsq : ((m._model (m.pag_model_input image)).data).squeeze0
      = some ⟨[m.num_classes], ((m._model (m.pag_model_input image)).data).data⟩ := by
    simp [NDArray.squeeze0, hout]
  have hgsq : (NDArray.mk ((m.pag_model_input image).data).shape
      (m._backward (m.pag_model_input image).data label)).squeeze0
      = some ⟨image.shape, m._backward (m.pag_model_input image).data label⟩ := by
    simp [NDArray.squeeze0, hgsh]
  refine ⟨⟨[m.num_classes], ((m._model (m.pag_model_input image)).data).data⟩,
          ⟨image.shape, m._backward (m.pag_model_input image).data label⟩,
          ?_, rfl, rfl, rfl, rfl, rfl⟩
  rw [predictions_and_gradient_eq, if_neg (by simp [h3])]
  simp [hsq, hgsq, NDArray.ndim]

/-- Witness for C2 at the concrete stub adapter and a (1, 1, 2) image. -/
theorem predictions_and_gradient_shape_contract_witness :
    img3.ndim = 3 ∧
    ∃ p g, stubModel.predictions_and_gradient img3 0 = Except.ok (p, g) ∧
      p.ndim = 1 ∧ p.shape = [stubModel.num_classes] ∧ g.shape = img3.shape ∧
      p.data = ((stubModel._model (stubModel.pag_model_input img3)).data).data ∧
      g.data = stubModel._backward (stubModel.pag_model_input img3).data 0 :=
  ⟨by decide,
   predictions_and_gradient_shape_contract stubModel img3 0 (by decide)
     (by decide) (by decide)⟩

/-- Characterization of the pre-call check: `predictions_and_gradient` fails
with the pre-call assertion exactly on non-3-dimensional images. -/
theorem pag_error_assertNdim3_iff (m : PyTorchModel) (image : NDArray)
    (label : Int) :
    m.predictions_and_gradient image label = Except.error PyErr.assertNdim3 ↔
      image.ndim ≠ 3 := by
  rw [predictions_and_gradient_eq]
  by_cases h3 : image.ndim = 3
  · rw [if_neg (by simp [h3])]
    simp only [h3, ne_eq, not_true_eq_false, iff_false]
    intro h
    repeat' split at h
    all_goals simp at h
  · rw [if_pos h3]
    simp [h3]

/-- Counterexample to C3: on a 2-dimensional image, the call fails with the
adapter's own pre-call check `assert image.ndim == 3` — before the wrapped
model is invoked — not with a library conversion error and not with a
postcondition assertion, even though this stub model's output would have
satisfied every postcondition. -/
theorem adapter_no_precall_check_cex :
    stubModel.predictions_and_gradient img2 0
      = Except.error PyErr.assertNdim3 := rfl

/-- C3 amended: `batch_predictions` performs no pre-call validation — its
only failures are the two postcondition assertions after the call — while
`predictions_and_gradient` performs exactly one pre-call adapter check,
`assert image.ndim == 3`, which fails precisely on non-3-dimensional
images; apart from that check, shape-related failures arise from the
wrapped library during conversion or from the postcondition assertions. -/
theorem adapter_precall_check_scope (m : PyTorchModel) (images image : NDArray)
    (label : Int) :
    (∀ e, m.batch_predictions images = Except.error e →
      e = PyErr.assertPredNdim2 ∨ e = PyErr.assertPredShapeBatch) ∧
    (m.predictions_and_gradient image label = Except.error PyErr.assertNdim3 ↔
      image.ndim ≠ 3) := by
  constructor
  · intro e he
    rw [batch_predictions_eq] at he
    split_ifs at he with h1 h2
    · exact Or.inl (Except.error.inj he).symm
    · exact Or.inr (Except.error.inj he).symm
  · exact pag_error_assertNdim3_iff m image label

/-- Witness for the amended C3: at the stub adapter, a batch whose size does
not match the stub's fixed (1, 2) output fails with a postcondition
assertion (one of the two allowed tags), and the 2-dimensional image fails
the pre-call dimension check. -/
theorem adapter_precall_check_scope_witness :
    (PyErr.assertPredShapeBatch = PyErr.assertPredNdim2 ∨
      PyErr.assertPredShapeBatch = PyErr.assertPredShapeBatch) ∧
    (stubModel.predictions_and_gradient img2 0
        = Except.error PyErr.assertNdim3 ↔ img2.ndim ≠ 3) :=
  ⟨(adapter_precall_check_scope stubModel ⟨[2, 3], [0, 0, 0, 0, 0, 0]⟩ img2 0).1
      PyErr.assertPredShapeBatch rfl,
   (adapter_precall_check_scope stubModel ⟨[2, 3], [0, 0, 0, 0, 0, 0]⟩ img2 0).2⟩

/-- C4: for every input batch, the array handed to the wrapped model (as the
data of the inference `Variable`) is the preprocessing function's result on
the raw input when a preprocessing function was supplied at construction,
and the raw input unchanged when none was supplied. -/
theorem preprocessing_contract (model : Variable → Variable)
    (backward : NDArray → Int → List Int) (bounds : Int × Int)
    (num_classes channel_axis : Nat) (cuda : Bool) (f : PyFun)
    (images : NDArray) :
    ((PyTorchModel.init model backward bounds num_classes channel_axis cuda
        (some f)).batch_model_input images).data = (f images).1 ∧
    ((PyTorchModel.init model backward bounds num_classes channel_axis cuda
        none).batch_model_input images).data = images := by
  constructor
  · rw [batch_model_input_data]
    rfl
  · rw [batch_model_input_data]
    rfl

/-- C6: when a preprocessing function is supplied at construction, it only
ever receives a fresh copy of the input array, so the caller's raw array is
unchanged after `batch_predictions` and after `predictions_and_gradient`,
whatever mutation the supplied function performs on its argument. -/
theorem no_input_mutation (model : Variable → Variable)
    (backward : NDArray → Int → List Int) (bounds : Int × Int)
    (num_classes channel_axis : Nat) (cuda : Bool) (f : PyFun)
    (images image : NDArray) :
    (PyTorchModel.init model backward bounds num_classes channel_axis cuda
        (some f)).batch_predictions_images_after images = images ∧
    (PyTorchModel.init model backward bounds num_classes channel_axis cuda
        (some f)).pag_image_after image = image := by
  exact ⟨rfl, rfl⟩

/-- C7: with the wrapped model a pure function, calling `batch_predictions`
a second time on the input array as the first call left it returns exactly
the first call's result. -/
theorem batch_predictions_idempotent (model : Variable → Variable)
    (backward : NDArray → Int → List Int) (bounds : Int × Int)
    (num_classes channel_axis : Nat) (cuda : Bool) (pf : Option PyFun)
    (images : NDArray) :
    (PyTorchModel.init model backward bounds num_classes channel_axis cuda
        pf).batch_predictions
      ((PyTorchModel.init model backward bounds num_classes channel_axis cuda
        pf).batch_predictions_images_after images)
      = (PyTorchModel.init model backward bounds num_classes channel_axis cuda
        pf).batch_predictions images := by
  cases pf <;> rfl

/-- C5: the gradient returned by `predictions_and_gradient` is the autograd
gradient of the cross-entropy loss with respect to the preprocessed input
tensor (the batch dimension squeezed away), and the result depends on the
stored preprocessing function only through its value at the wrapped image —
no chain rule through the preprocessing step is applied. -/
theorem gradient_wrt_preprocessed_input (m : PyTorchModel) (image : NDArray)
    (label : Int) :
    (∀ p g, m.predictions_and_gradient image label = Except.ok (p, g) →
      (NDArray.mk ((m.pag_model_input image).data).shape
        (m._backward (m.pag_model_input image).data label)).squeeze0
        = some g) ∧
    (∀ f₁ f₂ : PyFun,
      (f₁ image.expandDims0).1 = (f₂ image.expandDims0).1 →
      PyTorchModel.predictions_and_gradient { m with preprocessing_fn := f₁ }
          image label =
      PyTorchModel.predictions_and_gradient { m with preprocessing_fn := f₂ }
          image label) := by
  constructor
  · intro p g h
    rw [predictions_and_gradient_eq] at h
    by_cases h3 : image.ndim ≠ 3
    · rw [if_pos h3] at h
      simp at h
    · rw [if_neg h3] at h
      rcases hsq : ((m._model (m.pag_model_input image)).data).squeeze0
        with _ | p'
      · rw [hsq] at h
        simp at h
      · rw [hsq] at h
        simp only [] at h
        by_cases h1 : p'.ndim ≠ 1
        · rw [if_pos h1] at h
          simp at h
        · rw [if_neg h1] at h
          by_cases h2 : p'.shape ≠ [m.num_classes]
          · rw [if_pos h2] at h
            simp at h
          · rw [if_neg h2] at h
            rcases hg : (NDArray.mk ((m.pag_model_input image).data).shape
                (m._backward (m.pag_model_input image).data label)).squeeze0
              with _ | g'
            · rw [hg] at h
              simp at h
            · rw [hg] at h
              simp only [] at h
              by_cases hgs : g'.shape ≠ image.shape
              · rw [if_pos hgs] at h
                simp at h
              · rw [if_neg hgs] at h
                simp only [Except.ok.injEq, Prod.mk.injEq] at h
                rw [h.2]
  · intro f₁ f₂ hf
    obtain ⟨bd, ca, nc, F, B, cu, pf⟩ := m
    unfold PyTorchModel.predictions_and_gradient PyTorchModel.pag_model_input
      PyTorchModel.num_classes
    dsimp only
    rw [hf]

/-- Witness for C5 at the concrete stub adapter: the returned gradient is
the autograd gradient at the preprocessed batch, squeezed. -/
theorem gradient_wrt_preprocessed_input_witness :
    (NDArray.mk ((stubModel.pag_model_input img3).data).shape
      (stubModel._backward (stubModel.pag_model_input img3).data 0)).squeeze0
      = some ⟨img3.shape, [4, 6]⟩ :=
  (gradient_wrt_preprocessed_input stubModel img3 0).1
    ⟨[2], [0, 0]⟩ ⟨img3.shape, [4, 6]⟩ rfl

/-- C8: `batch_predictions` builds no differentiation graph: the `Variable`
handed to the wrapped model is marked `volatile` (inference mode) with
`requires_grad` off, and the call's result only ever depends on the wrapped
model's behavior on volatile variables. -/
theorem batch_predictions_inference_mode (m : PyTorchModel)
    (images : NDArray) :
    (m.batch_model_input images).volatile = true ∧
    (m.batch_model_input images).requires_grad = false ∧
    ∀ F G : Variable → Variable,
      (∀ v, v.volatile = true → F v = G v) →
      PyTorchModel.batch_predictions { m with _model := F } images =
      PyTorchModel.batch_predictions { m with _model := G } images := by
  refine ⟨rfl, rfl, ?_⟩
  intro F G h
  obtain ⟨bd, ca, nc, F0, B, cu, pf⟩ := m
  have hX : PyTorchModel.batch_model_input
        (PyTorchModel.mk bd ca nc F B cu pf) images
      = PyTorchModel.batch_model_input
        (PyTorchModel.mk bd ca nc G B cu pf) images := rfl
  unfold PyTorchModel.batch_predictions PyTorchModel.num_classes
  dsimp only
  rw [← hX, h _ rfl]

/-- A second stub forward pass, agreeing with `stubForward` on volatile
variables only. -/
def stubForwardAlt : Variable → Variable :=
  fun v => if v.volatile then stubForward v else ⟨⟨[], []⟩, false, false⟩

/-- Witness for C8 at the concrete stub adapter: swapping the wrapped model
for one that agrees only on volatile (inference-mode) variables leaves the
result of `batch_predictions` unchanged. -/
theorem batch_predictions_inference_mode_witness :
    PyTorchModel.batch_predictions { stubModel with _model := stubForward }
        batch1 =
      PyTorchModel.batch_predictions { stubModel with _model := stubForwardAlt }
        batch1 :=
  (batch_predictions_inference_mode stubModel batch1).2.2 stubForward
    stubForwardAlt (fun v hv => by simp [stubForwardAlt, hv])

/-- C9: `num_classes()` is a pure read of the class count stored at
construction: after any sequence of `batch_predictions` and
`predictions_and_gradient` calls, it still returns exactly the value
supplied to the constructor. -/
theorem num_classes_constant (model : Variable → Variable)
    (backward : NDArray → Int → List Int) (bounds : Int × Int)
    (nc ca : Nat) (cuda : Bool) (pf : Option PyFun) (cs : List Call) :
    ((PyTorchModel.init model backward bounds nc ca cuda pf).runCalls
      cs).num_classes = nc := by
  have hstep : ∀ (m : PyTorchModel) (c : Call),
      (m.step c)._num_classes = m._num_classes := by
    intro m c
    cases c <;> rfl
  suffices h : ∀ (m : PyTorchModel) (cs : List Call),
      (m.runCalls cs)._num_classes = m._num_classes by
    exact h (PyTorchModel.init model backward bounds nc ca cuda pf) cs
  intro m cs
  induction cs generalizing m with
  | nil => rfl
  | cons c cs ih =>
      have hr : m.runCalls (c :: cs) = (m.step c).runCalls cs := rfl
      rw [hr, ih (m.step c), hstep]

/-- C10: `batch_predictions` takes the expected batch size n from the raw
input before preprocessing, so whenever the stored preprocessing changes the
leading batch dimension, the shape postcondition assertion fails even though
the wrapped model's output is consistent with the preprocessed batch it
received. -/
theorem batch_size_from_raw_input (m : PyTorchModel) (images : NDArray)
    (hlen : ((m.preprocessing_fn images).1).len ≠ images.len)
    (hout : ((m._model (m.batch_model_input images)).data).shape
      = [((m.preprocessing_fn images).1).len, m.num_classes]) :
    m.batch_predictions images = Except.error PyErr.assertPredShapeBatch := by
  rw [batch_predictions_eq]
  rw [if_neg (by simp [NDArray.ndim, hout])]
  rw [if_pos (by rw [hout]; simp [hlen])]

/-- Witness for C10: the concrete adapter whose preprocessing doubles the
batch size fails the shape assertion on a one-image batch although the stub
model's (2, 2) output matches the preprocessed two-image batch. -/
theorem batch_size_from_raw_input_witness :
    stubModelGrow.batch_predictions ⟨[1, 2], [5, 7]⟩
      = Except.error PyErr.assertPredShapeBatch :=
  batch_size_from_raw_input stubModelGrow ⟨[1, 2], [5, 7]⟩ (by decide)
    (by decide)
